import Mathlib

/-!
Verification of the loan-lifecycle / due-date / notification subsystem of the
front-end repository, against its natural-language specification.

The embedding translates the TypeScript source into Lean:
timestamps are modelled as milliseconds (`Int`), the JavaScript `Set` as
`Finset String`, the asynchronous handlers as state-transition functions that
take each network outcome as an explicit parameter (single-threaded event-loop
semantics: each `await` is a suspension point, so a whole handler run is a
function of its inputs and the responses it awaited).
-/

set_option autoImplicit false

namespace FrontEnd

/-- Milliseconds per day, the divisor `1000 * 60 * 60 * 24` used by the source. -/
def msPerDay : Int := 86400000

/-- Exact ceiling division on integers: `Math.ceil(a / b)` for integer `a` and
positive integer `b`, computed via floor division (`Int.fdiv`). -/
def ceilDiv (a b : Int) : Int := -((-a).fdiv b)

/-- The derived classification fields attached to each checkout
(source: the map body inside `fetchCheckouts`). -/
structure Classification where
  is_overdue : Bool
  days_overdue : Int
  days_until_due : Int
deriving DecidableEq, Repr

/-- Due-date classification, translated from the body of the
`data.books.map` callback in `fetchCheckouts` (UserCheckouts component,
lines 82-94):
`dueDate = book.due_date ? new Date(book.due_date) : null`;
`isOverdue = dueDate ? currentDate > dueDate : false`;
`daysDiff = dueDate ? Math.ceil((dueDate - currentDate) / msPerDay) : 0`;
`days_overdue = isOverdue ? Math.abs(daysDiff) : 0`;
`days_until_due = !isOverdue ? daysDiff : 0`. -/
def classify (due_date : Option Int) (now : Int) : Classification :=
  let isOverdue : Bool :=
    match due_date with
    | some d => decide (now > d)
    | none => false
  let daysDiff : Int :=
    match due_date with
    | some d => ceilDiv (d - now) msPerDay
    | none => 0
  { is_overdue := isOverdue
    days_overdue := if isOverdue then |daysDiff| else 0
    days_until_due := if isOverdue then 0 else daysDiff }

/-- Refinement comparison only: the classifier as the specification words it
(section 4.1), where a null due date fails with `InvalidInput`. The source
classifier is `classify`; this definition exists solely to be compared with it. -/
def classifySpec (due_date : Option Int) (now : Int) : Except String Classification :=
  match due_date with
  | none => Except.error "InvalidInput"
  | some d =>
    let delta := ceilDiv (d - now) msPerDay
    if now > d then Except.ok ⟨true, |delta|, 0⟩
    else Except.ok ⟨false, 0, delta⟩

/-- The raw loan record fields relevant to classification
(source: the `Book` interface of the UserCheckouts component). -/
structure Book where
  id : String
  title : String
  author : String
  due_date : Option Int
deriving DecidableEq, Repr

/-- A loan with the derived overdue fields attached
(source: the `CheckoutInfo` interface extending `Book`). -/
structure CheckoutInfo extends Book where
  is_overdue : Bool
  days_overdue : Int
  days_until_due : Int
deriving DecidableEq, Repr

/-- Attach the classification of one book, as the map callback does. -/
def processBook (now : Int) (b : Book) : CheckoutInfo :=
  let c := classify b.due_date now
  ⟨b, c.is_overdue, c.days_overdue, c.days_until_due⟩

/-- `processedCheckouts = data.books.map (...)` with the single `currentDate`
snapshot taken once before the map (line 82). -/
def processCheckouts (now : Int) (books : List Book) : List CheckoutInfo :=
  books.map (processBook now)

/-- Claim C1: for a non-null due date `d` and an instant `now`, the
classification computed when fetching the user's loans sets `is_overdue` to
true if and only if `now > d`, an exact time-of-day comparison. -/
theorem classify_is_overdue_iff (d now : Int) :
    (classify (some d) now).is_overdue = true ↔ now > d := by
  simp [classify]

/-- Claim C2, counterexample: a loan overdue by exactly half a day
(due at 0, now at 43200000 ms) gets `days_overdue = 0`, while the claimed
formula `ceil((now - d) / 1 day)` gives 1 — the code rounds down, not up. -/
theorem classify_days_overdue_ne_ceil :
    (classify (some 0) 43200000).days_overdue ≠ ceilDiv (43200000 - 0) msPerDay := by
  decide

/-- Claim C2, amended: in the overdue branch (`now > d`), `days_until_due = 0`
and `days_overdue = |ceil((d - now) / 1 day)| = floor((now - d) / 1 day)`,
computed from the exact millisecond difference: fractional overdue amounts
round DOWN, so a loan overdue by less than a full day reports 0 days overdue. -/
theorem classify_overdue_fields (d now : Int) (h : d < now) :
    (classify (some d) now).days_until_due = 0 ∧
    (classify (some d) now).days_overdue = (now - d).fdiv msPerDay := by
  have hov : decide (now > d) = true := decide_eq_true h
  constructor
  · simp [classify, hov]
  · have hnn : 0 ≤ (now - d).fdiv msPerDay :=
      Int.fdiv_nonneg (by omega) (by decide)
    simp only [classify, hov, if_true, ceilDiv, neg_sub]
    rw [abs_neg, abs_of_nonneg hnn]

/-- Claim C2, amended, witness: due at 0, now two days and five hours later. -/
theorem classify_overdue_fields_witness :
    (0 : Int) < 190800000 ∧
    ((classify (some 0) 190800000).days_until_due = 0 ∧
     (classify (some 0) 190800000).days_overdue = ((190800000 : Int) - 0).fdiv msPerDay) :=
  ⟨by decide, classify_overdue_fields 0 190800000 (by decide)⟩

/-- Claim C4, counterexample: where the spec-worded classifier fails with
`InvalidInput` on a null due date, the source classifier returns a normal
classification `{is_overdue := false, days_overdue := 0, days_until_due := 0}`. -/
theorem classify_none_is_not_error :
    classifySpec none 0 = Except.error "InvalidInput" ∧
    classify none 0 = ⟨false, 0, 0⟩ := by
  exact ⟨rfl, rfl⟩

/-- Claim C4, amended: classifying a null due date does not fail; for every
instant `now` the code returns the normal classification with
`is_overdue = false`, `days_overdue = 0` and `days_until_due = 0`. -/
theorem classify_none_eq (now : Int) :
    classify none now = ⟨false, 0, 0⟩ := rfl

/-- Claim C7: within one `fetchCheckouts` call, the single `now` snapshot taken
at call time classifies every loan of the returned page — the output has the
same length as the input and its `i`-th element is the `i`-th input book
classified against that same shared instant. -/
theorem processCheckouts_shared_now (books : List Book) (now : Int) (i : Nat) :
    (processCheckouts now books).length = books.length ∧
    (processCheckouts now books)[i]? = (books[i]?).map (processBook now) := by
  constructor
  · simp [processCheckouts]
  · simp [processCheckouts]

/-- One awaited network response, as seen by a handler: a parsed success body,
a non-2xx response carrying an optional JSON `detail` string, or a rejected
fetch (transport error) carrying the thrown error's message. -/
inductive FetchOutcome (α : Type) where
  | ok (body : α)
  | httpError (detail : Option String)
  | transportError (message : String)
deriving DecidableEq

/-- Whether the outcome is the success case. -/
def FetchOutcome.isOk {α : Type} : FetchOutcome α → Bool
  | .ok _ => true
  | _ => false

/-- Successful body of GET `/books/my-checkouts`: `{books, total}`. -/
structure FetchPage where
  books : List Book
  total : Nat
deriving DecidableEq

/-- Successful body of POST `/books/{id}/checkin`:
`{was_overdue, days_overdue}`. -/
structure CheckinResponse where
  was_overdue : Bool
  days_overdue : Int
deriving DecidableEq

/-- Page size constant `limit = 10` of the UserCheckouts component. -/
def pageLimit : Nat := 10

/-- The React state of the UserCheckouts component, plus two instrumentation
fields that record externally observable effects: `fetchCalls` counts
invocations of `fetchCheckouts`, and `checkinRequests` lists, in order, the
ids for which a checkin POST was actually issued. -/
structure LoansState where
  checkouts : List CheckoutInfo
  loading : Bool
  error : String
  checkinLoading : Finset String
  extendLoading : Finset String
  currentPage : Nat
  totalPages : Nat
  successMessage : String
  fetchCalls : Nat
  checkinRequests : List String
deriving DecidableEq

/-- The component's initial state (`useState` initializers). -/
def LoansState.start : LoansState :=
  ⟨[], true, "", ∅, ∅, 1, 1, "", 0, []⟩

/-- One whole run of `fetchCheckouts` (lines 52-104), given the session and the
awaited response: sets `loading` and clears `error`, throws on a missing
session, on a non-ok response uses the body's `detail` (or the fallback
message), on success classifies the page against the single `now` snapshot and
sets `totalPages = ceil(total / limit)`; the catch stores the thrown message
and the finally clears `loading`. -/
def fetchCheckoutsRun (s : LoansState) (session : Option String)
    (outcome : FetchOutcome FetchPage) (now : Int) : LoansState :=
  let s0 : LoansState :=
    { s with loading := true, error := "", fetchCalls := s.fetchCalls + 1 }
  let s1 : LoansState :=
    match session with
    | none => { s0 with error := "No authenticated session found" }
    | some _ =>
      match outcome with
      | .ok page =>
        { s0 with checkouts := processCheckouts now page.books
                  totalPages := (page.total + pageLimit - 1) / pageLimit }
      | .httpError detail => { s0 with error := detail.getD "Failed to fetch checkouts" }
      | .transportError msg => { s0 with error := msg }
  { s1 with loading := false }

/-- First statement of `handleCheckin` (line 108): unconditionally add the id
to the `checkinLoading` set. There is no membership check before it. -/
def checkinStart (s : LoansState) (bookId : String) : LoansState :=
  { s with checkinLoading := insert bookId s.checkinLoading }

/-- The checkin POST being issued (line 116); recorded in the
`checkinRequests` instrumentation list. Nothing guards this on the pending
set. -/
def checkinIssueRequest (s : LoansState) (bookId : String) : LoansState :=
  { s with checkinRequests := s.checkinRequests ++ [bookId] }

/-- The success message built at line 131. -/
def checkinSuccessMessage (bookTitle : String) (r : CheckinResponse) : String :=
  "Successfully checked in \"" ++ bookTitle ++ "\"" ++
    (if r.was_overdue then " (was " ++ toString r.days_overdue ++ " days overdue)" else "")

/-- The `finally` block (lines 141-147): remove the id from `checkinLoading`
on every path. -/
def checkinFinally (s : LoansState) (bookId : String) : LoansState :=
  { s with checkinLoading := s.checkinLoading.erase bookId }

/-- One whole run of `handleCheckin` (lines 106-148), given the session, the
awaited checkin response, and — for the success path, which awaits
`fetchCheckouts()` — that nested call's session, response and `now` snapshot.
Order follows the source: add to the pending set, check the session, issue the
POST, then either set the success message and refresh, or store the error
message; the finally removes the id from the pending set. -/
def handleCheckinRun (s : LoansState) (bookId bookTitle : String)
    (session : Option String) (outcome : FetchOutcome CheckinResponse)
    (refreshSession : Option String) (refreshOutcome : FetchOutcome FetchPage)
    (refreshNow : Int) : LoansState :=
  let s0 := checkinStart s bookId
  let s1 :=
    match session with
    | none => { s0 with error := "No authenticated session found" }
    | some _ =>
      let sReq := checkinIssueRequest s0 bookId
      match outcome with
      | .ok r =>
        let sOk := { sReq with successMessage := checkinSuccessMessage bookTitle r }
        fetchCheckoutsRun sOk refreshSession refreshOutcome refreshNow
      | .httpError detail => { sReq with error := detail.getD "Failed to check in book" }
      | .transportError msg => { sReq with error := msg }
  checkinFinally s1 bookId

/-- The render-layer guard of the Check In button (line 388):
`disabled={checkinLoading.has(checkout.id)}`. -/
def checkinButtonDisabled (s : LoansState) (bookId : String) : Bool :=
  decide (bookId ∈ s.checkinLoading)

/-- Claim C3, counterexample: two interleaved `handleCheckin("loan-1")`
invocations that have both passed their suspension points up to the POST —
the id is already in the pending set when the second begins, yet the second
still issues its request, leaving two simultaneous checkin requests in
flight for the same id. `handleCheckin` contains no pending-set check. -/
theorem checkin_duplicate_requests :
    "loan-1" ∈ (checkinIssueRequest (checkinStart LoansState.start "loan-1")
        "loan-1").checkinLoading ∧
    (checkinIssueRequest (checkinStart (checkinIssueRequest
        (checkinStart LoansState.start "loan-1") "loan-1") "loan-1")
        "loan-1").checkinRequests = ["loan-1", "loan-1"] := by
  decide

/-- Claim C3, amended: the controller itself never rejects or ignores a second
`checkin(id)` — duplicate prevention lives in the render layer: from the
moment a checkin for `id` starts (the id is added to the pending set before
any await), the Check In button for `id` renders disabled, so a second
UI-initiated checkin for the same id cannot be triggered while the first is in
flight; a direct second invocation would issue a second network request. -/
theorem checkinStart_disables_button (s : LoansState) (bookId : String) :
    checkinButtonDisabled (checkinStart s bookId) bookId = true ∧
    bookId ∈ (checkinStart s bookId).checkinLoading := by
  constructor
  · simp [checkinButtonDisabled, checkinStart]
  · simp [checkinStart]

/-- Claim C5: when the checkin network call fails (non-ok response or
transport error), the handler surfaces the remote error message (`detail` or
the fallback), the id is removed from the checkin-pending set by the finally
block, and the loan list state is exactly as before — `checkouts`,
`totalPages` and `successMessage` are unchanged and no `fetchCheckouts`
refresh is attempted (`fetchCalls` is unchanged). -/
theorem handleCheckin_failure_no_refresh (s : LoansState)
    (bookId bookTitle tok : String) (outcome : FetchOutcome CheckinResponse)
    (rSession : Option String) (rOutcome : FetchOutcome FetchPage) (rNow : Int)
    (hfail : outcome.isOk = false) :
    (handleCheckinRun s bookId bookTitle (some tok) outcome rSession rOutcome
        rNow).checkouts = s.checkouts ∧
    (handleCheckinRun s bookId bookTitle (some tok) outcome rSession rOutcome
        rNow).totalPages = s.totalPages ∧
    (handleCheckinRun s bookId bookTitle (some tok) outcome rSession rOutcome
        rNow).successMessage = s.successMessage ∧
    (handleCheckinRun s bookId bookTitle (some tok) outcome rSession rOutcome
        rNow).fetchCalls = s.fetchCalls ∧
    bookId ∉ (handleCheckinRun s bookId bookTitle (some tok) outcome rSession
        rOutcome rNow).checkinLoading ∧
    (handleCheckinRun s bookId bookTitle (some tok) outcome rSession rOutcome
        rNow).error =
      (match outcome with
       | .ok _ => s.error
       | .httpError detail => detail.getD "Failed to check in book"
       | .transportError msg => msg) := by
  cases outcome with
  | ok r => simp [FetchOutcome.isOk] at hfail
  | httpError detail =>
    refine ⟨rfl, rfl, rfl, rfl, ?_, rfl⟩
    simp [handleCheckinRun, checkinFinally, Finset.not_mem_erase]
  | transportError msg =>
    refine ⟨rfl, rfl, rfl, rfl, ?_, rfl⟩
    simp [handleCheckinRun, checkinFinally, Finset.not_mem_erase]

/-- Claim C5, witness: a concrete failed checkin run from the initial state. -/
theorem handleCheckin_failure_no_refresh_witness :
    (FetchOutcome.isOk (FetchOutcome.httpError (α := CheckinResponse)
        (some "Book is not checked out")) = false) ∧
    ((handleCheckinRun LoansState.start "b1" "Dune" (some "tok")
        (.httpError (some "Book is not checked out")) none
        (.transportError "x") 0).checkouts = LoansState.start.checkouts ∧
     (handleCheckinRun LoansState.start "b1" "Dune" (some "tok")
        (.httpError (some "Book is not checked out")) none
        (.transportError "x") 0).totalPages = LoansState.start.totalPages ∧
     (handleCheckinRun LoansState.start "b1" "Dune" (some "tok")
        (.httpError (some "Book is not checked out")) none
        (.transportError "x") 0).successMessage = LoansState.start.successMessage ∧
     (handleCheckinRun LoansState.start "b1" "Dune" (some "tok")
        (.httpError (some "Book is not checked out")) none
        (.transportError "x") 0).fetchCalls = LoansState.start.fetchCalls ∧
     "b1" ∉ (handleCheckinRun LoansState.start "b1" "Dune" (some "tok")
        (.httpError (some "Book is not checked out")) none
        (.transportError "x") 0).checkinLoading ∧
     (handleCheckinRun LoansState.start "b1" "Dune" (some "tok")
        (.httpError (some "Book is not checked out")) none
        (.transportError "x") 0).error =
       (match (FetchOutcome.httpError (α := CheckinResponse)
           (some "Book is not checked out")) with
        | .ok _ => LoansState.start.error
        | .httpError detail => detail.getD "Failed to check in book"
        | .transportError msg => msg)) :=
  ⟨rfl, handleCheckin_failure_no_refresh LoansState.start "b1" "Dune" "tok"
    (.httpError (some "Book is not checked out")) none (.transportError "x") 0 rfl⟩

/-- One overdue entry of the notification payload. -/
structure OverdueBookInfo where
  id : String
  title : String
  author : String
  due_date : String
  days_overdue : Int
deriving DecidableEq

/-- One due-soon entry of the notification payload. -/
structure DueSoonBookInfo where
  id : String
  title : String
  author : String
  due_date : String
  days_until_due : Int
deriving DecidableEq

/-- The notification summary payload (`NotificationData` interface of
`useNotifications.ts`). -/
structure NotificationData where
  total_checkouts : Int
  overdue_count : Int
  due_soon_count : Int
  overdue_books : List OverdueBookInfo
  due_soon_books : List DueSoonBookInfo
  has_notifications : Bool
deriving DecidableEq

/-- The state of the `useNotifications` hook. -/
structure NotifState where
  notifications : Option NotificationData
  loading : Bool
  error : String
deriving DecidableEq

/-- One whole run of `fetchNotifications` (`useNotifications.ts`, lines
31-62): sets `loading` and clears `error`; with no session, sets the summary
to null and returns (no error, no network call); with a session, a non-ok
response throws `Error('Failed to fetch notifications')` (the body's `detail`
is never read) and a transport error throws with its own message — the catch
stores the thrown `Error`'s message and nulls the summary; the finally clears
`loading`. -/
def fetchNotificationsRun (s : NotifState) (session : Option String)
    (outcome : FetchOutcome NotificationData) : NotifState :=
  let s0 : NotifState := { s with loading := true, error := "" }
  let s1 : NotifState :=
    match session with
    | none => { s0 with notifications := none }
    | some _ =>
      match outcome with
      | .ok d => { s0 with notifications := some d }
      | .httpError _ =>
        { s0 with error := "Failed to fetch notifications", notifications := none }
      | .transportError msg => { s0 with error := msg, notifications := none }
  { s1 with loading := false }

/-- Claim C6, counterexample: a transport error (a rejected fetch, here with
the browser's usual message) surfaces that error's own message, not the fixed
string `Failed to fetch notifications` that the non-ok-status branch throws. -/
theorem fetchNotifications_transport_message :
    (fetchNotificationsRun ⟨none, false, ""⟩ (some "tok")
        (.transportError "Failed to fetch")).error ≠
      "Failed to fetch notifications" ∧
    (fetchNotificationsRun ⟨none, false, ""⟩ (some "tok")
        (.transportError "Failed to fetch")).error = "Failed to fetch" := by
  decide

/-- Claim C6, amended: for every failed poll the summary is wholly reset to
null (never a mixture of old and new fields); the error message is the fixed
string `Failed to fetch notifications` for a non-success HTTP status, while a
transport error surfaces its own message. -/
theorem fetchNotifications_failure_resets (s : NotifState) (tok : String)
    (detail : Option String) (msg : String) :
    (fetchNotificationsRun s (some tok) (.httpError detail)).notifications = none ∧
    (fetchNotificationsRun s (some tok) (.httpError detail)).error =
      "Failed to fetch notifications" ∧
    (fetchNotificationsRun s (some tok) (.transportError msg)).notifications = none ∧
    (fetchNotificationsRun s (some tok) (.transportError msg)).error = msg :=
  ⟨rfl, rfl, rfl, rfl⟩

/-- A catalog book as the LibraryDashboard holds it; only the fields the
checkout flow touches are modelled. -/
structure LibBook where
  id : String
  title : String
  status : String
deriving DecidableEq

/-- One AI recommendation entry: a book plus a reason string. -/
structure RecItem where
  book : LibBook
  reason : String
deriving DecidableEq

/-- The AI search results held in `aiSearchResults`. -/
structure AIResults where
  recommendations : List RecItem
deriving DecidableEq

/-- The LibraryDashboard state relevant to `handleCheckout`;
`fetchBooksCalls` instruments invocations of `fetchBooks`. -/
structure DashState where
  books : List LibBook
  aiSearchResults : Option AIResults
  error : String
  successMessage : String
  fetchBooksCalls : Nat
deriving DecidableEq

/-- Successful body of POST `/books/{id}/checkout`: `{book_title}`
(optional — the source falls back to the word `book`). -/
structure CheckoutResponse where
  book_title : Option String
deriving DecidableEq

/-- The success message built at line 269 of LibraryDashboard. -/
def checkoutSuccessMessage (r : CheckoutResponse) : String :=
  "Successfully checked out \"" ++ r.book_title.getD "book" ++ "\"!"

/-- The local patch the AI path applies (lines 256-261): mark the matching
recommendation's book as checked out, leave the rest untouched. -/
def markCheckedOut (bookId : String) (recs : List RecItem) : List RecItem :=
  recs.map fun item =>
    if item.book.id = bookId then
      { item with book := { item.book with status := "checked_out" } }
    else item

/-- One whole run of `handleCheckout` (LibraryDashboard, lines 230-283), given
the session and the awaited response. On success, the `fromAIRecommendations`
path patches `aiSearchResults` in place and sets a success message, with no
re-fetch; the regular-grid path awaits `fetchBooks()`, modelled as replacing
the book list with the freshly fetched page and counting the call. Failures
store the error message. -/
def handleCheckoutRun (s : DashState) (bookId : String) (fromAI : Bool)
    (session : Option String) (outcome : FetchOutcome CheckoutResponse)
    (refreshedBooks : List LibBook) : DashState :=
  match session with
  | none => { s with error := "No authenticated session found" }
  | some _ =>
    match outcome with
    | .ok r =>
      if fromAI then
        let s1 : DashState :=
          match s.aiSearchResults with
          | some res =>
            let res2 : AIResults := ⟨markCheckedOut bookId res.recommendations⟩
            { s with aiSearchResults := some res2 }
          | none => s
        { s1 with error := "", successMessage := checkoutSuccessMessage r }
      else
        { s with books := refreshedBooks, fetchBooksCalls := s.fetchBooksCalls + 1 }
    | .httpError detail => { s with error := detail.getD "Failed to checkout book" }
    | .transportError msg => { s with error := msg }

/-- Claim C8, counterexample: a successful checkout invoked from the
AI-recommendations panel performs a purely local patch — the recommendation's
status flips to `checked_out` while `fetchBooks` is never invoked — so the two
invoking views do NOT trigger the same downstream re-fetch. -/
theorem handleCheckout_ai_no_refetch :
    (handleCheckoutRun
        ⟨[], some ⟨[⟨⟨"b1", "Dune", "available"⟩, "because"⟩]⟩, "", "", 0⟩
        "b1" true (some "tok") (.ok ⟨some "Dune"⟩) []).fetchBooksCalls = 0 ∧
    (handleCheckoutRun
        ⟨[], some ⟨[⟨⟨"b1", "Dune", "available"⟩, "because"⟩]⟩, "", "", 0⟩
        "b1" true (some "tok") (.ok ⟨some "Dune"⟩) []).aiSearchResults =
      some ⟨[⟨⟨"b1", "Dune", "checked_out"⟩, "because"⟩]⟩ := by
  decide

/-- Claim C8, amended: only the regular book-grid path of a successful
checkout re-fetches the invoking view's book list (one `fetchBooks` call,
whose page replaces the list); the AI-recommendations path inside
LibraryDashboard never re-fetches — it locally patches the recommendation's
status to `checked_out` and leaves the grid's book list untouched. -/
theorem handleCheckout_refresh_paths (s : DashState) (bookId tok : String)
    (r : CheckoutResponse) (refreshedBooks : List LibBook) :
    (handleCheckoutRun s bookId false (some tok) (.ok r)
        refreshedBooks).fetchBooksCalls = s.fetchBooksCalls + 1 ∧
    (handleCheckoutRun s bookId false (some tok) (.ok r)
        refreshedBooks).books = refreshedBooks ∧
    (handleCheckoutRun s bookId true (some tok) (.ok r)
        refreshedBooks).fetchBooksCalls = s.fetchBooksCalls ∧
    (handleCheckoutRun s bookId true (some tok) (.ok r)
        refreshedBooks).books = s.books := by
  refine ⟨rfl, rfl, ?_, ?_⟩ <;>
    cases h : s.aiSearchResults <;> simp [handleCheckoutRun, h]

/-- `handleSelectDocument` (DocumentDashboard, lines 179-188): flip membership
of the id in the selection set, returning a fresh set. -/
def handleSelectDocument (sel : Finset String) (docId : String) : Finset String :=
  if docId ∈ sel then sel.erase docId else insert docId sel

/-- `handleSelectAll` (DocumentDashboard, lines 190-196): if everything
visible is already selected, clear; else select every currently filtered id. -/
def handleSelectAll (sel : Finset String) (filteredIds : List String) : Finset String :=
  if sel.card = filteredIds.length then ∅ else filteredIds.toFinset

/-- The header checkbox's checked expression (DocumentDashboard, line 417):
`filteredDocuments.length > 0 && selectedDocuments.size === filteredDocuments.length`. -/
def isFullySelected (sel : Finset String) (filteredIds : List String) : Bool :=
  decide (0 < filteredIds.length) && decide (sel.card = filteredIds.length)

/-- Claim C9: for distinct candidate ids `[a, b, c]`, `selectAll` from the
empty selection then `toggle b` yields the selection `{a, c}` and
`isFullySelected` is then false; and in general `isFullySelected` holds
exactly when the selection size equals the candidate count and that count is
positive. -/
theorem selectAll_toggle_selection (a b c : String) (sel : Finset String)
    (cand : List String) (hab : a ≠ b) (hbc : b ≠ c) (hac : a ≠ c) :
    handleSelectDocument (handleSelectAll ∅ [a, b, c]) b = {a, c} ∧
    isFullySelected (handleSelectDocument (handleSelectAll ∅ [a, b, c]) b)
      [a, b, c] = false ∧
    (isFullySelected sel cand = true ↔ sel.card = cand.length ∧ 0 < cand.length) := by
  have hall : handleSelectAll ∅ [a, b, c] = insert a (insert b {c}) := by
    simp [handleSelectAll]
  have hmem : b ∈ insert a (insert b ({c} : Finset String)) := by simp
  have herase : (insert a (insert b ({c} : Finset String))).erase b = {a, c} := by
    ext x
    simp only [Finset.mem_erase, Finset.mem_insert, Finset.mem_singleton]
    constructor
    · rintro ⟨hxb, hx | hx | hx⟩
      · exact Or.inl hx
      · exact absurd hx hxb
      · exact Or.inr hx
    · rintro (hx | hx)
      · exact ⟨hx ▸ hab, Or.inl hx⟩
      · exact ⟨hx ▸ (Ne.symm hbc), Or.inr (Or.inr hx)⟩
  have hsel : handleSelectDocument (handleSelectAll ∅ [a, b, c]) b = {a, c} := by
    rw [hall, handleSelectDocument, if_pos hmem, herase]
  have hcard : ({a, c} : Finset String).card = 2 := by
    rw [Finset.card_insert_of_not_mem (by simp [hac]), Finset.card_singleton]
  refine ⟨hsel, ?_, ?_⟩
  · rw [hsel]
    simp [isFullySelected, hcard]
  · simp [isFullySelected, and_comm]

/-- Claim C9, witness: the scenario at ids `a`, `b`, `c` with a one-element
selection and candidate list for the general characterization. -/
theorem selectAll_toggle_selection_witness :
    (("a" : String) ≠ "b" ∧ ("b" : String) ≠ "c" ∧ ("a" : String) ≠ "c") ∧
    (handleSelectDocument (handleSelectAll ∅ ["a", "b", "c"]) "b" = {"a", "c"} ∧
     isFullySelected (handleSelectDocument (handleSelectAll ∅ ["a", "b", "c"]) "b")
       ["a", "b", "c"] = false ∧
     (isFullySelected {"x"} ["x"] = true ↔
       ({"x"} : Finset String).card = ["x"].length ∧ 0 < ["x"].length)) :=
  ⟨⟨by decide, by decide, by decide⟩,
   selectAll_toggle_selection "a" "b" "c" {"x"} ["x"]
     (by decide) (by decide) (by decide)⟩

/-- An action control offered for one checkout row in the checkouts view. -/
inductive LoanAction where
  | renew (bookId : String)
  | checkin (bookId : String)
deriving DecidableEq

/-- The action buttons the checkouts view renders for one row (UserCheckouts,
lines 358-408): the Renew button exists only under `!checkout.is_overdue`
(line 360), the Check In button always. -/
def actionsFor (c : CheckoutInfo) : List LoanAction :=
  (if c.is_overdue then [] else [LoanAction.renew c.id]) ++ [LoanAction.checkin c.id]

/-- Claim C10: in the checkouts view a renew control is rendered for a loan
exactly when its classification at render time had `is_overdue = false`, so
every `handleExtendCheckout` invocation is for a non-overdue loan; an overdue
loan's row offers only the Check In action. -/
theorem renew_only_when_not_overdue (c : CheckoutInfo) :
    (LoanAction.renew c.id ∈ actionsFor c ↔ c.is_overdue = false) ∧
    actionsFor c = (if c.is_overdue then [LoanAction.checkin c.id]
      else [LoanAction.renew c.id, LoanAction.checkin c.id]) := by
  cases h : c.is_overdue <;> simp [actionsFor, h]

end FrontEnd
